import Mathlib

/-!
# Shallow embedding of the callfortender CRUD scaffolds

This file embeds the three source files of the repository —
`src/src/entorno.py` (User variant with a router that maps `ValueError`
to HTTP 404), `src/src/proyecto.py` (User variant whose router catches
every exception as HTTP 500 and whose repository `get_by_id` returns
`None` instead of raising), and `src/src/convocatoria.py` (Convocation
variant) — and proves the spec's CRUD properties about them.

Modelling conventions:
* The async SQLAlchemy session is abstracted to an explicit table state:
  a list of rows in insertion order plus the autoincrement counter for
  the surrogate primary key.  `session.add` of a new entity followed by
  `commit`/`refresh` assigns the next id and appends the row;
  `session.delete` + `commit` removes the row; re-`add`ing a fetched
  entity after `setattr` persists the patched field values over the row
  with the same id.
* `result.scalar_one_or_none()` is `scalar_one_or_none` below: `none`
  for no match, the row for exactly one match, and the
  `MultipleResultsFound` error otherwise.
* Python `date` values are abstracted to `Nat` ordinals (only presence
  and order matter to the claims).
* Pydantic validation of a request body is a function from a raw input
  (every field optional, mirroring an arbitrary JSON object) to
  `Except ValidationError`; `Field(..., min_length, max_length)` bounds
  become explicit length checks on `String.length`.
* Pydantic's `dict(exclude_unset=True)` is modelled by wrapping each
  optional schema field in an extra `Option` layer: the outer layer
  records whether the caller supplied the field at all.
-/

namespace CallForTender

/-- Python `datetime.date`, abstracted to an ordinal. -/
abbrev Date := Nat

/-- Errors surfaced by the SQLAlchemy result API
(`scalar_one_or_none` raises when several rows match). -/
inductive DBError where
  | multipleResultsFound
  deriving DecidableEq, Repr

/-- `str(e)` for the database-level errors. -/
def DBError.str : DBError → String
  | .multipleResultsFound => "Multiple rows were found when one or none was required"

/-- Exceptions raised by repository code: Python `ValueError(msg)`
(the not-found condition) or a propagated database error. -/
inductive RepoError where
  | valueError (msg : String)
  | db (e : DBError)
  deriving DecidableEq, Repr

/-- `str(e)` for repository exceptions, as the routers interpolate it
into the HTTP `detail`. -/
def RepoError.str : RepoError → String
  | .valueError msg => msg
  | .db e => e.str

/-- The value a FastAPI route handler produces: a 200 body, or an
`HTTPException(status_code, detail)`. -/
inductive HTTPResponse (α : Type) where
  | ok (body : α)
  | error (status : Nat) (detail : String)
  deriving DecidableEq, Repr

/-! ## User data model (`entorno.py` lines 212-256, `proyecto.py` lines 312-359) -/

/-- Pydantic `UserBase`: `username` and `email` are required,
the remaining fields default to `None`. -/
structure UserBase where
  username : String
  email : String
  first_name : Option String := none
  last_name : Option String := none
  date_of_birth : Option Date := none
  deriving DecidableEq, Repr

/-- Pydantic `UserCreate`: `UserBase` plus a required `password`
(the `min_length=8` bound lives in validation, not in the value). -/
structure UserCreate extends UserBase where
  password : String
  deriving DecidableEq, Repr

/-- Pydantic `UserUpdate` (same fields as `UserBase`), with
`exclude_unset` tracking: `username` and `email` are required so a
validated instance always carries them; each optional field is either
absent from the request (`none`) or explicitly supplied
(`some v`, where `v` itself may be Python `None`). -/
structure UserUpdate where
  username : String
  email : String
  first_name : Option (Option String) := none
  last_name : Option (Option String) := none
  date_of_birth : Option (Option Date) := none
  deriving DecidableEq, Repr

/-- The stored row (`UserInDB`): the surrogate id, the scalar fields
and the secret `hashed_password` column. -/
structure UserInDB where
  id : Nat
  username : String
  email : String
  first_name : Option String
  last_name : Option String
  date_of_birth : Option Date
  hashed_password : String
  deriving DecidableEq, Repr

/-- Pydantic `User`, the read-output returned to the client: the id and
the scalar fields, without `hashed_password`. -/
structure User where
  id : Nat
  username : String
  email : String
  first_name : Option String
  last_name : Option String
  date_of_birth : Option Date
  deriving DecidableEq, Repr

/-- `User.from_orm`: project a stored row to the outward-facing shape
(drops `hashed_password`). -/
def User.from_orm (r : UserInDB) : User :=
  { id := r.id, username := r.username, email := r.email,
    first_name := r.first_name, last_name := r.last_name,
    date_of_birth := r.date_of_birth }

/-- The `users` table reached through the session: rows in insertion
order plus the autoincrement counter for the primary key. -/
structure UserTable where
  rows : List UserInDB
  nextId : Nat
  deriving DecidableEq, Repr

/-- `result.scalar_one_or_none()` over `select(T).where(T.id == i)`:
`none` when no row matches, the row when exactly one does, and the
`MultipleResultsFound` error otherwise. -/
def scalar_one_or_none {α : Type} (key : α → Nat) (rows : List α) (i : Nat) :
    Except DBError (Option α) :=
  match rows.filter (fun r => key r = i) with
  | [] => .ok none
  | [r] => .ok (some r)
  | _ => .error .multipleResultsFound

/-- Well-formedness the storage engine guarantees: primary keys are
distinct and below the autoincrement counter. -/
def UserTable.WF (st : UserTable) : Prop :=
  (st.rows.map (fun r => r.id)).Nodup ∧ ∀ r ∈ st.rows, r.id < st.nextId

instance (st : UserTable) : Decidable st.WF := by
  unfold UserTable.WF; infer_instance

/-- The `setattr` loop of the repositories' `update`, run over the
stored row: overwrite exactly the entries of
`user_update.dict(exclude_unset=True)` — `username` and `email` are
always present there (they are required fields of `UserUpdate`), an
optional field is present exactly when the caller supplied it. -/
def UserInDB.apply_update (r : UserInDB) (user_update : UserUpdate) : UserInDB :=
  { r with
    username := user_update.username
    email := user_update.email
    first_name := user_update.first_name.getD r.first_name
    last_name := user_update.last_name.getD r.last_name
    date_of_birth := user_update.date_of_birth.getD r.date_of_birth }

/-! ## `entorno.py`: repository (lines 265-373), service (391-454) and router (39-121) -/

namespace Entorno

namespace UserRepository

/-- `UserRepository._hash_password` (entorno.py lines 362-373):
"Placeholder for actual hashing logic", returns the password itself. -/
def _hash_password (password : String) : String :=
  password

/-- `UserRepository.create`: build the row from the create-input with
the hashed password, `add`/`commit`/`refresh` (assigning the next id),
and return `User.from_orm` of the row. -/
def create (st : UserTable) (user : UserCreate) : User × UserTable :=
  let db_user : UserInDB :=
    { id := st.nextId
      username := user.username
      email := user.email
      first_name := user.first_name
      last_name := user.last_name
      date_of_birth := user.date_of_birth
      hashed_password := _hash_password user.password }
  (User.from_orm db_user, { rows := st.rows ++ [db_user], nextId := st.nextId + 1 })

/-- `UserRepository.get_all`: `select(UserInDB).offset(skip).limit(limit)`,
each row projected through `User.from_orm`. -/
def get_all (st : UserTable) (skip : Nat) (limit : Nat) : List User :=
  ((st.rows.drop skip).take limit).map User.from_orm

/-- `UserRepository.get_by_id`: `scalar_one_or_none`; raises
`ValueError(f"User with id {user_id} not found")` when no row matches.
The session is returned unchanged alongside the result. -/
def get_by_id (st : UserTable) (user_id : Nat) : Except RepoError User × UserTable :=
  match scalar_one_or_none UserInDB.id st.rows user_id with
  | .error e => (.error (.db e), st)
  | .ok none => (.error (.valueError ("User with id " ++ toString user_id ++ " not found")), st)
  | .ok (some db_user) => (.ok (User.from_orm db_user), st)

/-- `UserRepository.update`: fetch through `get_by_id` (propagating its
not-found `ValueError`), run the `setattr` loop over
`dict(exclude_unset=True)`, persist with `add`/`commit`/`refresh`, and
return the updated read-output.  The patched entity carries no
`hashed_password` attribute, so that column keeps its stored value. -/
def update (st : UserTable) (user_id : Nat) (user_update : UserUpdate) :
    Except RepoError User × UserTable :=
  match scalar_one_or_none UserInDB.id st.rows user_id with
  | .error e => (.error (.db e), st)
  | .ok none => (.error (.valueError ("User with id " ++ toString user_id ++ " not found")), st)
  | .ok (some db_user) =>
    let patched := db_user.apply_update user_update
    (.ok (User.from_orm patched),
     { st with rows := st.rows.map (fun r => if r.id = user_id then patched else r) })

/-- `UserRepository.delete`: fetch through `get_by_id` (propagating its
not-found `ValueError`), `session.delete` the row, and return the last
known read-output. -/
def delete (st : UserTable) (user_id : Nat) : Except RepoError User × UserTable :=
  match scalar_one_or_none UserInDB.id st.rows user_id with
  | .error e => (.error (.db e), st)
  | .ok none => (.error (.valueError ("User with id " ++ toString user_id ++ " not found")), st)
  | .ok (some db_user) =>
    (.ok (User.from_orm db_user), { st with rows := st.rows.eraseP (fun r => r.id = user_id) })

end UserRepository

/- `CallProcessingService` (entorno.py lines 397-454): a pure
pass-through to the repository. -/
namespace CallProcessingService

def create := UserRepository.create

def get_by_id := UserRepository.get_by_id

def update := UserRepository.update

def delete := UserRepository.delete

end CallProcessingService

/-- Router `POST /users/` (entorno.py lines 48-63): any exception is
re-raised as `HTTPException(500, str(e))`; `create` itself raises
nothing in the model. -/
def create_user (st : UserTable) (user : UserCreate) : HTTPResponse User × UserTable :=
  let (u, st') := CallProcessingService.create st user
  (.ok u, st')

/-- Router `GET /users/{user_id}` (entorno.py lines 65-82):
`ValueError` becomes `HTTPException(404, str(e))`, any other exception
`HTTPException(500, str(e))`. -/
def get_user (st : UserTable) (user_id : Nat) : HTTPResponse User × UserTable :=
  match CallProcessingService.get_by_id st user_id with
  | (.ok u, st') => (.ok u, st')
  | (.error (.valueError msg), st') => (.error 404 msg, st')
  | (.error (.db e), st') => (.error 500 e.str, st')

/-- Router `PUT /users/{user_id}` (entorno.py lines 84-102):
`ValueError` becomes 404, any other exception 500. -/
def update_user (st : UserTable) (user_id : Nat) (user_update : UserUpdate) :
    HTTPResponse User × UserTable :=
  match CallProcessingService.update st user_id user_update with
  | (.ok u, st') => (.ok u, st')
  | (.error (.valueError msg), st') => (.error 404 msg, st')
  | (.error (.db e), st') => (.error 500 e.str, st')

/-- Router `DELETE /users/{user_id}` (entorno.py lines 104-121):
`ValueError` becomes 404, any other exception 500. -/
def delete_user (st : UserTable) (user_id : Nat) : HTTPResponse User × UserTable :=
  match CallProcessingService.delete st user_id with
  | (.ok u, st') => (.ok u, st')
  | (.error (.valueError msg), st') => (.error 404 msg, st')
  | (.error (.db e), st') => (.error 500 e.str, st')

end Entorno

/-! ## `proyecto.py`: repository (lines 185-299), service (106-176) and router (12-97) -/

namespace Proyecto

namespace UserRepository

/-- `UserRepository._hash_password` (proyecto.py lines 287-299):
"Placeholder for actual hashing logic", returns the password itself. -/
def _hash_password (password : String) : String :=
  password

/-- `UserRepository.create` (proyecto.py lines 195-216): build the row,
`add`/`commit`/`refresh`, and return the row itself (`db_user`,
including its `hashed_password` column). -/
def create (st : UserTable) (user : UserCreate) : UserInDB × UserTable :=
  let db_user : UserInDB :=
    { id := st.nextId
      username := user.username
      email := user.email
      first_name := user.first_name
      last_name := user.last_name
      date_of_birth := user.date_of_birth
      hashed_password := _hash_password user.password }
  (db_user, { rows := st.rows ++ [db_user], nextId := st.nextId + 1 })

/-- `UserRepository.get_all` (proyecto.py lines 218-232): returns the
rows themselves, no projection. -/
def get_all (st : UserTable) (skip : Nat) (limit : Nat) : List UserInDB :=
  (st.rows.drop skip).take limit

/-- `UserRepository.get_by_id` (proyecto.py lines 234-247): returns
`result.scalar_one_or_none()` directly — `none` when the id resolves to
no row, with no exception raised. -/
def get_by_id (st : UserTable) (user_id : Nat) :
    Except DBError (Option UserInDB) × UserTable :=
  (scalar_one_or_none UserInDB.id st.rows user_id, st)

/-- `UserRepository.update` (proyecto.py lines 249-268): fetch the row,
raise `ValueError("User not found")` when it is `None`, run the
`setattr` loop over `dict(exclude_unset=True)` on the row itself, and
persist. -/
def update (st : UserTable) (user_id : Nat) (user_update : UserUpdate) :
    Except RepoError UserInDB × UserTable :=
  match scalar_one_or_none UserInDB.id st.rows user_id with
  | .error e => (.error (.db e), st)
  | .ok none => (.error (.valueError "User not found"), st)
  | .ok (some db_user) =>
    let patched := db_user.apply_update user_update
    (.ok patched,
     { st with rows := st.rows.map (fun r => if r.id = user_id then patched else r) })

/-- `UserRepository.delete` (proyecto.py lines 270-285): fetch the row,
raise `ValueError("User not found")` when it is `None`, `session.delete`
it, and return the removed row. -/
def delete (st : UserTable) (user_id : Nat) : Except RepoError UserInDB × UserTable :=
  match scalar_one_or_none UserInDB.id st.rows user_id with
  | .error e => (.error (.db e), st)
  | .ok none => (.error (.valueError "User not found"), st)
  | .ok (some db_user) =>
    (.ok db_user, { st with rows := st.rows.eraseP (fun r => r.id = user_id) })

end UserRepository

/- `CallProcessingService` (proyecto.py lines 106-176): a pure
pass-through to the repository. -/
namespace CallProcessingService

def create_user := UserRepository.create

def get_user_by_id := UserRepository.get_by_id

def update_user := UserRepository.update

def delete_user := UserRepository.delete

end CallProcessingService

/-- Router `POST /users/` (proyecto.py lines 12-27): any exception
becomes `HTTPException(500, str(e))`; the response is serialized
through `response_model=User`, which drops `hashed_password`. -/
def create_user (st : UserTable) (user : UserCreate) : HTTPResponse User × UserTable :=
  let (db_user, st') := CallProcessingService.create_user st user
  (.ok (User.from_orm db_user), st')

/-- Router `GET /users/{user_id}` (proyecto.py lines 47-62): the only
handler-level translation is `except Exception` → `HTTPException(500,
str(e))`.  When the repository yields `None` the handler returns `None`,
which fails the `response_model=User` validation and surfaces as the
framework's 500 Internal Server Error — never a 404. -/
def read_user (st : UserTable) (user_id : Nat) : HTTPResponse User × UserTable :=
  match CallProcessingService.get_user_by_id st user_id with
  | (.ok (some db_user), st') => (.ok (User.from_orm db_user), st')
  | (.ok none, st') => (.error 500 "Internal Server Error", st')
  | (.error e, st') => (.error 500 e.str, st')

/-- Router `PUT /users/{user_id}` (proyecto.py lines 64-80): every
exception, the not-found `ValueError` included, becomes
`HTTPException(500, str(e))`. -/
def update_user (st : UserTable) (user_id : Nat) (user_update : UserUpdate) :
    HTTPResponse User × UserTable :=
  match CallProcessingService.update_user st user_id user_update with
  | (.ok db_user, st') => (.ok (User.from_orm db_user), st')
  | (.error e, st') => (.error 500 e.str, st')

/-- Router `DELETE /users/{user_id}` (proyecto.py lines 82-97): every
exception, the not-found `ValueError` included, becomes
`HTTPException(500, str(e))`. -/
def delete_user (st : UserTable) (user_id : Nat) : HTTPResponse User × UserTable :=
  match CallProcessingService.delete_user st user_id with
  | (.ok db_user, st') => (.ok (User.from_orm db_user), st')
  | (.error e, st') => (.error 500 e.str, st')

end Proyecto

/-! ## `convocatoria.py`: schemas (lines 11-44), repository (54-147),
service (156-226) and router (269-350) -/

/-- Pydantic `ConvocationBase` (convocatoria.py lines 11-18): every
field is required; `title` has `min_length=5, max_length=200`,
`description` has `min_length=10`. -/
structure ConvocationBase where
  title : String
  description : String
  start_date : Date
  end_date : Date
  deriving DecidableEq, Repr

/-- `ConvocationCreate` (convocatoria.py lines 20-23) adds nothing to
`ConvocationBase`. -/
abbrev ConvocationCreate := ConvocationBase

/-- `ConvocationUpdate` (convocatoria.py lines 25-28) adds nothing to
`ConvocationBase`: every field stays required. -/
abbrev ConvocationUpdate := ConvocationBase

/-- The stored row (`ConvocationInDB`): id plus the base fields. -/
structure ConvocationInDB where
  id : Nat
  title : String
  description : String
  start_date : Date
  end_date : Date
  deriving DecidableEq, Repr

/-- Pydantic `Convocation`, the read-output returned to the client. -/
structure Convocation where
  id : Nat
  title : String
  description : String
  start_date : Date
  end_date : Date
  deriving DecidableEq, Repr

/-- `Convocation.from_orm`. -/
def Convocation.from_orm (r : ConvocationInDB) : Convocation :=
  { id := r.id, title := r.title, description := r.description,
    start_date := r.start_date, end_date := r.end_date }

/-- The `convocations` table: rows in insertion order plus the
autoincrement counter. -/
structure ConvocationTable where
  rows : List ConvocationInDB
  nextId : Nat
  deriving DecidableEq, Repr

/-- Well-formedness the storage engine guarantees for the
`convocations` table: primary keys are distinct and below the
autoincrement counter. -/
def ConvocationTable.WF (st : ConvocationTable) : Prop :=
  (st.rows.map (fun r => r.id)).Nodup ∧ ∀ r ∈ st.rows, r.id < st.nextId

instance (st : ConvocationTable) : Decidable st.WF := by
  unfold ConvocationTable.WF; infer_instance

/-- Pydantic validation failures (surfaced by the framework as
HTTP 422). -/
inductive ValidationError where
  | missing (field : String)
  | stringTooShort (field : String)
  | stringTooLong (field : String)
  deriving DecidableEq, Repr

/-- A textual rendering for the 422 detail. -/
def ValidationError.str : ValidationError → String
  | .missing f => "field required: " ++ f
  | .stringTooShort f => "ensure this value has enough characters: " ++ f
  | .stringTooLong f => "ensure this value has at most the allowed characters: " ++ f

/-- A raw request body for a convocation, before validation: an
arbitrary JSON object may supply or omit each field. -/
structure RawConvocationInput where
  title : Option String := none
  description : Option String := none
  start_date : Option Date := none
  end_date : Option Date := none
  deriving DecidableEq, Repr

/-- Pydantic validation of `ConvocationBase` (hence of
`ConvocationCreate` and `ConvocationUpdate`, which add no fields and no
validators): every field must be present, `title` must have length in
`[5, 200]`, `description` length at least `10`.  No cross-field
validator exists, so the two dates are only checked for presence. -/
def validate_convocation (raw : RawConvocationInput) : Except ValidationError ConvocationBase :=
  match raw.title with
  | none => .error (.missing "title")
  | some t =>
    if t.length < 5 then .error (.stringTooShort "title")
    else if 200 < t.length then .error (.stringTooLong "title")
    else
      match raw.description with
      | none => .error (.missing "description")
      | some d =>
        if d.length < 10 then .error (.stringTooShort "description")
        else
          match raw.start_date with
          | none => .error (.missing "start_date")
          | some s =>
            match raw.end_date with
            | none => .error (.missing "end_date")
            | some e =>
              .ok { title := t, description := d, start_date := s, end_date := e }

/-- The `setattr` loop of `ConvocationRepository.update`: every field
of `ConvocationUpdate` is required, so `dict(exclude_unset=True)`
always contains all four and the whole base is replaced. -/
def ConvocationInDB.apply_update (r : ConvocationInDB) (u : ConvocationUpdate) : ConvocationInDB :=
  { r with
    title := u.title
    description := u.description
    start_date := u.start_date
    end_date := u.end_date }

namespace ConvocationRepository

/-- `ConvocationRepository.create` (convocatoria.py lines 64-83):
build the row, `add`/`commit`/`refresh` (assigning the next id), and
return `Convocation.from_orm` of the row. -/
def create (st : ConvocationTable) (convocation : ConvocationCreate) :
    Convocation × ConvocationTable :=
  let db_convocation : ConvocationInDB :=
    { id := st.nextId
      title := convocation.title
      description := convocation.description
      start_date := convocation.start_date
      end_date := convocation.end_date }
  (Convocation.from_orm db_convocation,
   { rows := st.rows ++ [db_convocation], nextId := st.nextId + 1 })

/-- `ConvocationRepository.get_all` (convocatoria.py lines 85-97). -/
def get_all (st : ConvocationTable) (skip : Nat) (limit : Nat) : List Convocation :=
  ((st.rows.drop skip).take limit).map Convocation.from_orm

/-- `ConvocationRepository.get_by_id` (convocatoria.py lines 99-113):
raises `ValueError(f"Convocation with id {convocation_id} not found")`
when no row matches. -/
def get_by_id (st : ConvocationTable) (convocation_id : Nat) :
    Except RepoError Convocation × ConvocationTable :=
  match scalar_one_or_none ConvocationInDB.id st.rows convocation_id with
  | .error e => (.error (.db e), st)
  | .ok none =>
    (.error (.valueError ("Convocation with id " ++ toString convocation_id ++ " not found")), st)
  | .ok (some db_convocation) => (.ok (Convocation.from_orm db_convocation), st)

/-- `ConvocationRepository.update` (convocatoria.py lines 115-132):
fetch through `get_by_id` (propagating its not-found `ValueError`), run
the `setattr` loop, persist, and return the updated read-output. -/
def update (st : ConvocationTable) (convocation_id : Nat) (convocation_update : ConvocationUpdate) :
    Except RepoError Convocation × ConvocationTable :=
  match scalar_one_or_none ConvocationInDB.id st.rows convocation_id with
  | .error e => (.error (.db e), st)
  | .ok none =>
    (.error (.valueError ("Convocation with id " ++ toString convocation_id ++ " not found")), st)
  | .ok (some db_convocation) =>
    let patched := db_convocation.apply_update convocation_update
    (.ok (Convocation.from_orm patched),
     { st with rows := st.rows.map (fun r => if r.id = convocation_id then patched else r) })

/-- `ConvocationRepository.delete` (convocatoria.py lines 134-147):
fetch through `get_by_id` (propagating its not-found `ValueError`),
`session.delete` the row, and return the last known read-output. -/
def delete (st : ConvocationTable) (convocation_id : Nat) :
    Except RepoError Convocation × ConvocationTable :=
  match scalar_one_or_none ConvocationInDB.id st.rows convocation_id with
  | .error e => (.error (.db e), st)
  | .ok none =>
    (.error (.valueError ("Convocation with id " ++ toString convocation_id ++ " not found")), st)
  | .ok (some db_convocation) =>
    (.ok (Convocation.from_orm db_convocation),
     { st with rows := st.rows.eraseP (fun r => r.id = convocation_id) })

end ConvocationRepository

/- `ConvocationService` (convocatoria.py lines 156-226): a pure
pass-through to the repository. -/
namespace ConvocationService

def create_convocation := ConvocationRepository.create

def get_all_convocations := ConvocationRepository.get_all

def get_convocation_by_id := ConvocationRepository.get_by_id

def update_convocation := ConvocationRepository.update

def delete_convocation := ConvocationRepository.delete

end ConvocationService

namespace ConvocationRouter

/-- Router `POST /convocations/` (convocatoria.py lines 271-283): the
framework validates the body against `ConvocationCreate` first (422 on
failure); the handler itself adds no error translation. -/
def create_convocation (raw : RawConvocationInput) (st : ConvocationTable) :
    HTTPResponse Convocation × ConvocationTable :=
  match validate_convocation raw with
  | .error e => (.error 422 e.str, st)
  | .ok convocation =>
    let (c, st') := ConvocationService.create_convocation st convocation
    (.ok c, st')

/-- Router `GET /convocations/{convocation_id}` (convocatoria.py lines
300-315): `ValueError` becomes `HTTPException(404, str(e))`; any other
exception propagates to the framework default 500. -/
def get_convocation_by_id (st : ConvocationTable) (convocation_id : Nat) :
    HTTPResponse Convocation × ConvocationTable :=
  match ConvocationService.get_convocation_by_id st convocation_id with
  | (.ok c, st') => (.ok c, st')
  | (.error (.valueError msg), st') => (.error 404 msg, st')
  | (.error (.db _), st') => (.error 500 "Internal Server Error", st')

/-- Router `PUT /convocations/{convocation_id}` (convocatoria.py lines
317-333): the framework validates the body against `ConvocationUpdate`
first — on failure it answers 422 and the handler (hence the service
and repository) is never invoked; the handler maps `ValueError` to
`HTTPException(404, str(e))`. -/
def update_convocation (raw : RawConvocationInput) (st : ConvocationTable)
    (convocation_id : Nat) : HTTPResponse Convocation × ConvocationTable :=
  match validate_convocation raw with
  | .error e => (.error 422 e.str, st)
  | .ok convocation_update =>
    match ConvocationService.update_convocation st convocation_id convocation_update with
    | (.ok c, st') => (.ok c, st')
    | (.error (.valueError msg), st') => (.error 404 msg, st')
    | (.error (.db _), st') => (.error 500 "Internal Server Error", st')

/-- Router `DELETE /convocations/{convocation_id}` (convocatoria.py
lines 335-350): `ValueError` becomes `HTTPException(404, str(e))`. -/
def delete_convocation (st : ConvocationTable) (convocation_id : Nat) :
    HTTPResponse Convocation × ConvocationTable :=
  match ConvocationService.delete_convocation st convocation_id with
  | (.ok c, st') => (.ok c, st')
  | (.error (.valueError msg), st') => (.error 404 msg, st')
  | (.error (.db _), st') => (.error 500 "Internal Server Error", st')

end ConvocationRouter

/-! ## Lemmas about the session primitives -/

/-- A lookup over rows none of which carries the key yields no row. -/
theorem scalar_one_or_none_of_absent {α : Type} (key : α → Nat) (rows : List α) (i : Nat)
    (h : ∀ r ∈ rows, key r ≠ i) : scalar_one_or_none key rows i = .ok none := by
  unfold scalar_one_or_none
  have hf : rows.filter (fun r => key r = i) = [] := by
    rw [List.filter_eq_nil_iff]
    intro a ha
    simp [h a ha]
  rw [hf]

/-- Conversely, a lookup yielding no row means no stored row carries the key. -/
theorem absent_of_scalar_one_or_none {α : Type} (key : α → Nat) (rows : List α) (i : Nat)
    (h : scalar_one_or_none key rows i = .ok none) : ∀ r ∈ rows, key r ≠ i := by
  unfold scalar_one_or_none at h
  rcases hf : rows.filter (fun x => key x = i) with _ | ⟨a, tl⟩
  · intro r hr hkr
    have hmem : r ∈ rows.filter (fun x => key x = i) :=
      List.mem_filter.mpr ⟨hr, by simp [hkr]⟩
    rw [hf] at hmem
    cases hmem
  · rw [hf] at h
    rcases tl with _ | ⟨b, tl⟩ <;> simp at h

/-- Inserting a fresh row at the end makes it the unique result of a
lookup by its key. -/
theorem scalar_one_or_none_append_new {α : Type} (key : α → Nat) (rows : List α) (r : α)
    (i : Nat) (hi : key r = i) (h : ∀ x ∈ rows, key x ≠ i) :
    scalar_one_or_none key (rows ++ [r]) i = .ok (some r) := by
  unfold scalar_one_or_none
  have hf : (rows ++ [r]).filter (fun x => key x = i) = [r] := by
    rw [List.filter_append]
    have h1 : rows.filter (fun x => key x = i) = [] := by
      rw [List.filter_eq_nil_iff]
      intro a ha
      simp [h a ha]
    rw [h1]
    simp [hi]
  rw [hf]

/-- A row produced by a lookup carries the looked-up key and is stored. -/
theorem scalar_one_or_none_mem_key {α : Type} (key : α → Nat) (rows : List α) (i : Nat) (r : α)
    (h : scalar_one_or_none key rows i = .ok (some r)) : key r = i ∧ r ∈ rows := by
  unfold scalar_one_or_none at h
  rcases hf : rows.filter (fun x => key x = i) with _ | ⟨a, tl⟩
  · rw [hf] at h
    simp at h
  rcases tl with _ | ⟨b, tl⟩
  · rw [hf] at h
    have har : a = r := by simpa using h
    subst har
    have hmem : a ∈ rows.filter (fun x => key x = i) := by
      rw [hf]
      exact List.mem_cons_self a []
    rcases List.mem_filter.mp hmem with ⟨hin, hkey⟩
    exact ⟨by simpa using hkey, hin⟩
  · rw [hf] at h
    simp at h

/-- With pairwise-distinct keys, a filter by one key keeps at most one row. -/
theorem filter_key_short {α : Type} (key : α → Nat) (rows : List α) (i : Nat)
    (h : (rows.map key).Nodup) :
    rows.filter (fun r => key r = i) = [] ∨
      ∃ r, rows.filter (fun r => key r = i) = [r] := by
  rcases hf : rows.filter (fun r => key r = i) with _ | ⟨a, tl⟩
  · exact Or.inl rfl
  rcases tl with _ | ⟨b, tl⟩
  · exact Or.inr ⟨a, rfl⟩
  exfalso
  have hsub : ((rows.filter (fun r => key r = i)).map key).Sublist (rows.map key) :=
    (List.filter_sublist rows).map key
  have hnd : ((rows.filter (fun r => key r = i)).map key).Nodup := h.sublist hsub
  rw [hf] at hnd
  have ha : a ∈ rows.filter (fun r => key r = i) := by
    rw [hf]; exact List.mem_cons_self _ _
  have hb : b ∈ rows.filter (fun r => key r = i) := by
    rw [hf]; exact List.mem_cons_of_mem _ (List.mem_cons_self _ _)
  have hka : key a = i := by simpa using (List.mem_filter.mp ha).2
  have hkb : key b = i := by simpa using (List.mem_filter.mp hb).2
  simp [hka, hkb, List.nodup_cons] at hnd

/-- With pairwise-distinct keys, `scalar_one_or_none` never raises
`MultipleResultsFound`. -/
theorem scalar_one_or_none_ne_error {α : Type} (key : α → Nat) (rows : List α) (i : Nat)
    (h : (rows.map key).Nodup) (e : DBError) : scalar_one_or_none key rows i ≠ .error e := by
  unfold scalar_one_or_none
  rcases filter_key_short key rows i h with hf | ⟨r, hf⟩ <;> rw [hf] <;> simp

/-- With pairwise-distinct keys, no row carrying the key survives
`eraseP` by that key. -/
theorem eraseP_key_absent {α : Type} (key : α → Nat) (rows : List α) (i : Nat)
    (h : (rows.map key).Nodup) :
    ∀ r ∈ rows.eraseP (fun x => key x = i), key r ≠ i := by
  induction rows with
  | nil => simp
  | cons a tl ih =>
    rw [List.map_cons, List.nodup_cons] at h
    intro r hr hkr
    rw [List.eraseP_cons] at hr
    by_cases hka : key a = i
    · simp only [hka, decide_True, cond_true] at hr
      exact h.1 (by rw [hka, ← hkr]; exact List.mem_map_of_mem key hr)
    · simp only [hka, decide_False, cond_false] at hr
      rcases List.mem_cons.mp hr with hra | hrtl
      · exact hka (hra ▸ hkr)
      · exact ih h.2 r hrtl hkr

/-- The not-found details all end in the words `not found`. -/
theorem not_found_isInfix (pre : String) :
    "not found".toList <:+: (pre ++ " not found").toList := by
  have h1 : "not found".toList <:+ " not found".toList := by decide
  have h2 : " not found".toList <:+ (pre ++ " not found").toList := by
    show " not found".data <:+ (pre ++ " not found").data
    rw [String.data_append]
    exact List.suffix_append _ _
  exact (h1.trans h2).isInfix

/-- On a well-formed table, no row with the deleted id survives
`UserRepository.delete` (whatever the outcome of the call). -/
theorem Entorno.user_delete_terminal (st : UserTable) (j : Nat) (hwf : st.WF) :
    ∀ r ∈ (Entorno.UserRepository.delete st j).2.rows, r.id ≠ j := by
  unfold Entorno.UserRepository.delete
  rcases hs : scalar_one_or_none UserInDB.id st.rows j with e | o
  · exact absurd hs (scalar_one_or_none_ne_error _ _ _ hwf.1 e)
  rcases o with _ | r
  · exact absent_of_scalar_one_or_none UserInDB.id st.rows j hs
  · exact eraseP_key_absent UserInDB.id st.rows j hwf.1

/-- On a well-formed table, no row with the deleted id survives
`ConvocationRepository.delete` (whatever the outcome of the call). -/
theorem Convocation.convocation_delete_terminal (cst : ConvocationTable) (j : Nat) (hwf : cst.WF) :
    ∀ r ∈ (ConvocationRepository.delete cst j).2.rows, r.id ≠ j := by
  unfold ConvocationRepository.delete
  rcases hs : scalar_one_or_none ConvocationInDB.id cst.rows j with e | o
  · exact absurd hs (scalar_one_or_none_ne_error _ _ _ hwf.1 e)
  rcases o with _ | r
  · exact absent_of_scalar_one_or_none ConvocationInDB.id cst.rows j hs
  · exact eraseP_key_absent ConvocationInDB.id cst.rows j hwf.1

/-! ## The claims -/

/-- Claim C6: both User variants' `_hash_password` is the identity on
every password string, so `create` stores the supplied password
unchanged in the `hashed_password` column of the new row. -/
theorem c6_hash_password_identity :
    (∀ p, Entorno.UserRepository._hash_password p = p) ∧
    (∀ p, Proyecto.UserRepository._hash_password p = p) ∧
    (∀ st x, (Entorno.UserRepository.create st x).2.rows.map
        (fun r => r.hashed_password) =
      st.rows.map (fun r => r.hashed_password) ++ [x.password]) ∧
    (∀ st x, (Proyecto.UserRepository.create st x).2.rows.map
        (fun r => r.hashed_password) =
      st.rows.map (fun r => r.hashed_password) ++ [x.password]) := by
  refine ⟨fun p => rfl, fun p => rfl, fun st x => ?_, fun st x => ?_⟩ <;>
    simp [Entorno.UserRepository.create, Proyecto.UserRepository.create,
      Entorno.UserRepository._hash_password, Proyecto.UserRepository._hash_password]

/-- Claim C7: schema validation of a convocation accepts any input whose
title and description satisfy the length bounds, even when
`start_date > end_date` — no schema rejects an inverted date range. -/
theorem c7_inverted_dates_accepted (t d : String) (s e : Date)
    (ht1 : 5 ≤ t.length) (ht2 : t.length ≤ 200) (hd : 10 ≤ d.length)
    (hse : e < s) :
    validate_convocation
        { title := some t, description := some d,
          start_date := some s, end_date := some e } =
      .ok { title := t, description := d, start_date := s, end_date := e } := by
  have h1 : ¬ (t.length < 5) := by omega
  have h2 : ¬ (200 < t.length) := by omega
  have h3 : ¬ (d.length < 10) := by omega
  have _ : e < s := hse
  simp [validate_convocation, h1, h2, h3]

/-- Witness for C7 at a concrete inverted-date input. -/
theorem c7_witness :
    5 ≤ "Title".length ∧ "Title".length ≤ 200 ∧ 10 ≤ "0123456789".length ∧
    (5 : Date) < 10 ∧
    validate_convocation
        { title := some "Title", description := some "0123456789",
          start_date := some 10, end_date := some 5 } =
      .ok { title := "Title", description := "0123456789",
            start_date := 10, end_date := 5 } :=
  ⟨by decide, by decide, by decide, by decide,
   c7_inverted_dates_accepted "Title" "0123456789" 10 5
     (by decide) (by decide) (by decide) (by decide)⟩

/-- Claim C1 is refuted by the proyecto variant: on an empty table,
`UserRepository.get_by_id 999` returns `None` without failing — no
not-found condition is raised by that lookup. -/
theorem c1_counterexample :
    Proyecto.UserRepository.get_by_id { rows := [], nextId := 1 } 999 =
      (Except.ok none, { rows := [], nextId := 1 }) := by
  rfl

/-- Claim C1 (amended): for an identifier resolving to no row, the
entorno and convocatoria repositories fail `get_by_id`, `update` and
`delete` with the not-found `ValueError` and leave the table unchanged;
the proyecto repository fails `update` and `delete` with
`ValueError("User not found")` and leaves the table unchanged, but its
`get_by_id` returns `None` without failing.  On a well-formed table
delete is terminal in both the entorno and convocatoria variants: after
`delete id`, a lookup of `id` and a second `delete id` both fail
not-found. -/
theorem c1_not_found_and_terminal_delete
    (st : UserTable) (cst : ConvocationTable) (i : Nat)
    (hu : ∀ r ∈ st.rows, r.id ≠ i) (hc : ∀ r ∈ cst.rows, r.id ≠ i) :
    (Entorno.UserRepository.get_by_id st i =
      (.error (.valueError ("User with id " ++ toString i ++ " not found")), st)) ∧
    (∀ u, Entorno.UserRepository.update st i u =
      (.error (.valueError ("User with id " ++ toString i ++ " not found")), st)) ∧
    (Entorno.UserRepository.delete st i =
      (.error (.valueError ("User with id " ++ toString i ++ " not found")), st)) ∧
    (ConvocationRepository.get_by_id cst i =
      (.error (.valueError ("Convocation with id " ++ toString i ++ " not found")), cst)) ∧
    (∀ u, ConvocationRepository.update cst i u =
      (.error (.valueError ("Convocation with id " ++ toString i ++ " not found")), cst)) ∧
    (ConvocationRepository.delete cst i =
      (.error (.valueError ("Convocation with id " ++ toString i ++ " not found")), cst)) ∧
    (Proyecto.UserRepository.get_by_id st i = (.ok none, st)) ∧
    (∀ u, Proyecto.UserRepository.update st i u =
      (.error (.valueError "User not found"), st)) ∧
    (Proyecto.UserRepository.delete st i = (.error (.valueError "User not found"), st)) ∧
    (∀ st2 : UserTable, st2.WF → ∀ j,
      (Entorno.UserRepository.get_by_id (Entorno.UserRepository.delete st2 j).2 j).1 =
        .error (.valueError ("User with id " ++ toString j ++ " not found")) ∧
      (Entorno.UserRepository.delete (Entorno.UserRepository.delete st2 j).2 j).1 =
        .error (.valueError ("User with id " ++ toString j ++ " not found"))) ∧
    (∀ cst2 : ConvocationTable, cst2.WF → ∀ j,
      (ConvocationRepository.get_by_id (ConvocationRepository.delete cst2 j).2 j).1 =
        .error (.valueError ("Convocation with id " ++ toString j ++ " not found")) ∧
      (ConvocationRepository.delete (ConvocationRepository.delete cst2 j).2 j).1 =
        .error (.valueError ("Convocation with id " ++ toString j ++ " not found"))) := by
  have hsu : scalar_one_or_none UserInDB.id st.rows i = .ok none :=
    scalar_one_or_none_of_absent _ _ _ hu
  have hsc : scalar_one_or_none ConvocationInDB.id cst.rows i = .ok none :=
    scalar_one_or_none_of_absent _ _ _ hc
  refine ⟨?_, fun u => ?_, ?_, ?_, fun u => ?_, ?_, ?_, fun u => ?_, ?_,
    fun st2 hwf j => ?_, fun cst2 hwf j => ?_⟩
  · simp [Entorno.UserRepository.get_by_id, hsu]
  · simp [Entorno.UserRepository.update, hsu]
  · simp [Entorno.UserRepository.delete, hsu]
  · simp [ConvocationRepository.get_by_id, hsc]
  · simp [ConvocationRepository.update, hsc]
  · simp [ConvocationRepository.delete, hsc]
  · simp [Proyecto.UserRepository.get_by_id, hsu]
  · simp [Proyecto.UserRepository.update, hsu]
  · simp [Proyecto.UserRepository.delete, hsu]
  · have habs := Entorno.user_delete_terminal st2 j hwf
    generalize hg : (Entorno.UserRepository.delete st2 j).2 = st3 at habs ⊢
    have hs2 : scalar_one_or_none UserInDB.id st3.rows j = .ok none :=
      scalar_one_or_none_of_absent _ _ _ habs
    exact ⟨by simp [Entorno.UserRepository.get_by_id, hs2],
           by simp [Entorno.UserRepository.delete, hs2]⟩
  · have habs := Convocation.convocation_delete_terminal cst2 j hwf
    generalize hg : (ConvocationRepository.delete cst2 j).2 = cst3 at habs ⊢
    have hs2 : scalar_one_or_none ConvocationInDB.id cst3.rows j = .ok none :=
      scalar_one_or_none_of_absent _ _ _ habs
    exact ⟨by simp [ConvocationRepository.get_by_id, hs2],
           by simp [ConvocationRepository.delete, hs2]⟩

/-- Witness for C1 on an empty table and identifier 999. -/
theorem c1_witness :
    (∀ r ∈ ([] : List UserInDB), r.id ≠ 999) ∧
    (∀ r ∈ ([] : List ConvocationInDB), r.id ≠ 999) ∧
    Entorno.UserRepository.get_by_id { rows := [], nextId := 1 } 999 =
      (.error (.valueError ("User with id " ++ toString 999 ++ " not found")),
       { rows := [], nextId := 1 }) ∧
    Proyecto.UserRepository.delete { rows := [], nextId := 1 } 999 =
      (.error (.valueError "User not found"), { rows := [], nextId := 1 }) := by
  have h := c1_not_found_and_terminal_delete
    { rows := [], nextId := 1 } { rows := [], nextId := 1 } 999
    (by simp) (by simp)
  exact ⟨by simp, by simp, h.1, h.2.2.2.2.2.2.2.2.1⟩

/-- Claim C2: updating an existing entity replaces exactly the fields
supplied in the update-input (in the User variant `username` and
`email` are always supplied, the optional fields only when set) and
leaves every other field — the id and, for users, the stored
`hashed_password` included — at its prior value; the returned
read-output is the merged row.  Stated for the entorno User update and
the convocatoria update. -/
theorem c2_update_merge_patch
    (st : UserTable) (i : Nat) (u : UserUpdate) (r : UserInDB)
    (hr : scalar_one_or_none UserInDB.id st.rows i = .ok (some r))
    (cst : ConvocationTable) (ci : Nat) (cu : ConvocationUpdate) (cr : ConvocationInDB)
    (hcr : scalar_one_or_none ConvocationInDB.id cst.rows ci = .ok (some cr)) :
    (Entorno.UserRepository.update st i u =
      (.ok (User.from_orm (r.apply_update u)),
       { st with rows := st.rows.map (fun x => if x.id = i then r.apply_update u else x) })) ∧
    ((r.apply_update u).username = u.username) ∧
    ((r.apply_update u).email = u.email) ∧
    (∀ v, u.first_name = some v → (r.apply_update u).first_name = v) ∧
    (u.first_name = none → (r.apply_update u).first_name = r.first_name) ∧
    (∀ v, u.last_name = some v → (r.apply_update u).last_name = v) ∧
    (u.last_name = none → (r.apply_update u).last_name = r.last_name) ∧
    (∀ v, u.date_of_birth = some v → (r.apply_update u).date_of_birth = v) ∧
    (u.date_of_birth = none → (r.apply_update u).date_of_birth = r.date_of_birth) ∧
    ((r.apply_update u).id = r.id) ∧
    ((r.apply_update u).hashed_password = r.hashed_password) ∧
    (ConvocationRepository.update cst ci cu =
      (.ok (Convocation.from_orm (cr.apply_update cu)),
       { cst with
         rows := cst.rows.map (fun x => if x.id = ci then cr.apply_update cu else x) })) ∧
    ((cr.apply_update cu).title = cu.title) ∧
    ((cr.apply_update cu).description = cu.description) ∧
    ((cr.apply_update cu).start_date = cu.start_date) ∧
    ((cr.apply_update cu).end_date = cu.end_date) ∧
    ((cr.apply_update cu).id = cr.id) := by
  refine ⟨?_, rfl, rfl, fun v hv => ?_, fun hv => ?_, fun v hv => ?_, fun hv => ?_,
    fun v hv => ?_, fun hv => ?_, rfl, rfl, ?_, rfl, rfl, rfl, rfl, rfl⟩
  · simp [Entorno.UserRepository.update, hr]
  all_goals try simp [UserInDB.apply_update, hv]
  · simp [ConvocationRepository.update, hcr]

/-- Witness for C2 on a one-row table. -/
theorem c2_witness :
    (scalar_one_or_none UserInDB.id
        [{ id := 1, username := "alice", email := "a@example.com",
           first_name := some "Alice", last_name := none,
           date_of_birth := none, hashed_password := "password123" }] 1 =
      .ok (some { id := 1, username := "alice", email := "a@example.com",
                  first_name := some "Alice", last_name := none,
                  date_of_birth := none, hashed_password := "password123" })) ∧
    (Entorno.UserRepository.update
        { rows := [{ id := 1, username := "alice", email := "a@example.com",
                     first_name := some "Alice", last_name := none,
                     date_of_birth := none, hashed_password := "password123" }],
          nextId := 2 }
        1
        { username := "alice", email := "a@example.com",
          first_name := some (some "Jane") }).1 =
      .ok { id := 1, username := "alice", email := "a@example.com",
            first_name := some "Jane", last_name := none, date_of_birth := none } := by
  have h := c2_update_merge_patch
    { rows := [{ id := 1, username := "alice", email := "a@example.com",
                 first_name := some "Alice", last_name := none,
                 date_of_birth := none, hashed_password := "password123" }],
      nextId := 2 }
    1
    { username := "alice", email := "a@example.com",
      first_name := some (some "Jane") }
    { id := 1, username := "alice", email := "a@example.com",
      first_name := some "Alice", last_name := none,
      date_of_birth := none, hashed_password := "password123" }
    rfl
    { rows := [{ id := 1, title := "Title", description := "Description",
                 start_date := 1, end_date := 2 }], nextId := 2 }
    1
    { title := "New title", description := "New description",
      start_date := 3, end_date := 4 }
    { id := 1, title := "Title", description := "Description",
      start_date := 1, end_date := 2 }
    rfl
  refine ⟨rfl, ?_⟩
  rw [h.1]
  rfl

/-- Claim C3: on a well-formed table, creating a user and looking it up
by the assigned identifier returns the same read-output
(`get_by_id (create x).id = create x`), stated for the entorno
variant the claim cites. -/
theorem c3_create_roundtrip (st : UserTable) (x : UserCreate) (hwf : st.WF) :
    (Entorno.UserRepository.get_by_id (Entorno.UserRepository.create st x).2
        (Entorno.UserRepository.create st x).1.id).1 =
      .ok (Entorno.UserRepository.create st x).1 := by
  have habs : ∀ y ∈ st.rows, UserInDB.id y ≠ st.nextId := by
    intro y hy h
    have := hwf.2 y hy
    omega
  have hs := scalar_one_or_none_append_new UserInDB.id st.rows
    { id := st.nextId, username := x.username, email := x.email,
      first_name := x.first_name, last_name := x.last_name,
      date_of_birth := x.date_of_birth,
      hashed_password := Entorno.UserRepository._hash_password x.password }
    st.nextId rfl habs
  simp [Entorno.UserRepository.create, Entorno.UserRepository.get_by_id, User.from_orm, hs]

/-- Witness for C3 on the empty table. -/
theorem c3_witness :
    (UserTable.WF { rows := [], nextId := 1 }) ∧
    (Entorno.UserRepository.get_by_id
        (Entorno.UserRepository.create { rows := [], nextId := 1 }
          { username := "testuser", email := "test@example.com",
            password := "securepassword123" }).2
        (Entorno.UserRepository.create { rows := [], nextId := 1 }
          { username := "testuser", email := "test@example.com",
            password := "securepassword123" }).1.id).1 =
      .ok (Entorno.UserRepository.create { rows := [], nextId := 1 }
          { username := "testuser", email := "test@example.com",
            password := "securepassword123" }).1 :=
  ⟨by decide,
   c3_create_roundtrip { rows := [], nextId := 1 }
     { username := "testuser", email := "test@example.com",
       password := "securepassword123" }
     (by decide)⟩

/-- Claim C4 is refuted by the proyecto router: a DELETE for an
identifier resolving to no row answers HTTP 500 (its handler catches
every exception generically), not 404. -/
theorem c4_counterexample :
    Proyecto.delete_user { rows := [], nextId := 1 } 999 =
      (.error 500 "User not found", { rows := [], nextId := 1 }) := by
  rfl

/-- Claim C4 (amended): for GET-by-id, PUT and DELETE on an identifier
resolving to no row, the entorno and convocatoria routers answer
HTTP 404 with a detail containing "not found" (for PUT once the body
validates); the proyecto router instead answers HTTP 500 for all three
(its handlers catch every exception generically, and its repository
lookup returns `None`, which fails response-model validation). -/
theorem c4_router_not_found
    (st : UserTable) (cst : ConvocationTable) (i : Nat)
    (hu : ∀ r ∈ st.rows, r.id ≠ i) (hc : ∀ r ∈ cst.rows, r.id ≠ i) :
    (Entorno.get_user st i =
      (.error 404 ("User with id " ++ toString i ++ " not found"), st)) ∧
    (∀ u, Entorno.update_user st i u =
      (.error 404 ("User with id " ++ toString i ++ " not found"), st)) ∧
    (Entorno.delete_user st i =
      (.error 404 ("User with id " ++ toString i ++ " not found"), st)) ∧
    (ConvocationRouter.get_convocation_by_id cst i =
      (.error 404 ("Convocation with id " ++ toString i ++ " not found"), cst)) ∧
    (∀ raw cu, validate_convocation raw = .ok cu →
      ConvocationRouter.update_convocation raw cst i =
        (.error 404 ("Convocation with id " ++ toString i ++ " not found"), cst)) ∧
    (ConvocationRouter.delete_convocation cst i =
      (.error 404 ("Convocation with id " ++ toString i ++ " not found"), cst)) ∧
    ("not found".toList <:+: ("User with id " ++ toString i ++ " not found").toList) ∧
    ("not found".toList <:+: ("Convocation with id " ++ toString i ++ " not found").toList) ∧
    (Proyecto.read_user st i = (.error 500 "Internal Server Error", st)) ∧
    (∀ u, Proyecto.update_user st i u = (.error 500 "User not found", st)) ∧
    (Proyecto.delete_user st i = (.error 500 "User not found", st)) := by
  have hsu : scalar_one_or_none UserInDB.id st.rows i = .ok none :=
    scalar_one_or_none_of_absent _ _ _ hu
  have hsc : scalar_one_or_none ConvocationInDB.id cst.rows i = .ok none :=
    scalar_one_or_none_of_absent _ _ _ hc
  refine ⟨?_, fun u => ?_, ?_, ?_, fun raw cu hraw => ?_, ?_,
    not_found_isInfix _, not_found_isInfix _, ?_, fun u => ?_, ?_⟩
  · simp [Entorno.get_user, Entorno.CallProcessingService.get_by_id,
      Entorno.UserRepository.get_by_id, hsu]
  · simp [Entorno.update_user, Entorno.CallProcessingService.update,
      Entorno.UserRepository.update, hsu]
  · simp [Entorno.delete_user, Entorno.CallProcessingService.delete,
      Entorno.UserRepository.delete, hsu]
  · simp [ConvocationRouter.get_convocation_by_id,
      ConvocationService.get_convocation_by_id, ConvocationRepository.get_by_id, hsc]
  · simp [ConvocationRouter.update_convocation, hraw,
      ConvocationService.update_convocation, ConvocationRepository.update, hsc]
  · simp [ConvocationRouter.delete_convocation,
      ConvocationService.delete_convocation, ConvocationRepository.delete, hsc]
  · simp [Proyecto.read_user, Proyecto.CallProcessingService.get_user_by_id,
      Proyecto.UserRepository.get_by_id, hsu]
  · simp [Proyecto.update_user, Proyecto.CallProcessingService.update_user,
      Proyecto.UserRepository.update, RepoError.str, hsu]
  · simp [Proyecto.delete_user, Proyecto.CallProcessingService.delete_user,
      Proyecto.UserRepository.delete, RepoError.str, hsu]

/-- Witness for C4 on an empty table and identifier 999. -/
theorem c4_witness :
    (∀ r ∈ ([] : List UserInDB), r.id ≠ 999) ∧
    (∀ r ∈ ([] : List ConvocationInDB), r.id ≠ 999) ∧
    Entorno.get_user { rows := [], nextId := 1 } 999 =
      (.error 404 ("User with id " ++ toString 999 ++ " not found"),
       { rows := [], nextId := 1 }) ∧
    "not found".toList <:+: ("User with id " ++ toString 999 ++ " not found").toList ∧
    Proyecto.read_user { rows := [], nextId := 1 } 999 =
      (.error 500 "Internal Server Error", { rows := [], nextId := 1 }) := by
  have h := c4_router_not_found { rows := [], nextId := 1 } { rows := [], nextId := 1 } 999
    (by simp) (by simp)
  exact ⟨by simp, by simp, h.1, h.2.2.2.2.2.2.1, h.2.2.2.2.2.2.2.2.1⟩

/-- Claim C5 is refuted at the operation level by the proyecto variant:
its repository `create` returns the stored row itself, whose
`hashed_password` field is present and equal to the supplied
password. -/
theorem c5_counterexample :
    (Proyecto.UserRepository.create { rows := [], nextId := 1 }
        { username := "testuser", email := "test@example.com",
          password := "securepassword123" }).1.hashed_password =
      "securepassword123" := by
  rfl

/-- Claim C5 (amended): the entorno variant's operations return `User`
read-outputs built by `User.from_orm`, which discards
`hashed_password` (so they are unchanged by any change to the secret);
the proyecto repository and service instead return the `UserInDB` row
itself, whose `hashed_password` equals the supplied password, and only
the router's `response_model=User` projection excludes the secret from
the HTTP response. -/
theorem c5_read_output_excludes_secret :
    (∀ (r : UserInDB) (p : String),
      User.from_orm { r with hashed_password := p } = User.from_orm r) ∧
    (∀ (st : UserTable) (x : UserCreate) (p : String),
      (Entorno.UserRepository.create st { x with password := p }).1 =
        (Entorno.UserRepository.create st x).1) ∧
    (∀ (st : UserTable) (x : UserCreate),
      (Proyecto.UserRepository.create st x).1.hashed_password = x.password) ∧
    (∀ (st : UserTable) (x : UserCreate),
      (Proyecto.create_user st x).1 =
        .ok (User.from_orm (Proyecto.UserRepository.create st x).1)) ∧
    (∀ (st : UserTable) (x : UserCreate) (p : String),
      (Proyecto.create_user st { x with password := p }).1 =
        (Proyecto.create_user st x).1) := by
  refine ⟨fun r p => rfl, fun st x p => rfl, fun st x => rfl, fun st x => rfl,
    fun st x p => rfl⟩

/-- Claim C8: the identifier is assigned at creation by the persistence
layer (it is the table's autoincrement counter, whatever the input) and
is never client-supplied (neither create- nor update-input carries an
id, so an update leaves every row's id — and the updated entity's id —
unchanged). -/
theorem c8_id_assigned_once_at_creation :
    (∀ st x, (Entorno.UserRepository.create st x).1.id = st.nextId) ∧
    (∀ st x, (Proyecto.UserRepository.create st x).1.id = st.nextId) ∧
    (∀ cst c, (ConvocationRepository.create cst c).1.id = cst.nextId) ∧
    (∀ st i u, (Entorno.UserRepository.update st i u).2.rows.map (fun r => r.id) =
      st.rows.map (fun r => r.id)) ∧
    (∀ st i u out st2, Entorno.UserRepository.update st i u = (.ok out, st2) →
      out.id = i) ∧
    (∀ cst i cu, (ConvocationRepository.update cst i cu).2.rows.map (fun r => r.id) =
      cst.rows.map (fun r => r.id)) := by
  refine ⟨fun st x => rfl, fun st x => rfl, fun cst c => rfl, fun st i u => ?_,
    fun st i u out st2 h => ?_, fun cst i cu => ?_⟩
  · unfold Entorno.UserRepository.update
    rcases hs : scalar_one_or_none UserInDB.id st.rows i with e | o
    · rfl
    rcases o with _ | r
    · rfl
    have hkey := (scalar_one_or_none_mem_key UserInDB.id st.rows i r hs).1
    dsimp only
    rw [List.map_map]
    apply List.map_congr_left
    intro a _
    by_cases ha : a.id = i
    · simp [Function.comp, ha, UserInDB.apply_update, hkey]
    · simp [Function.comp, ha]
  · unfold Entorno.UserRepository.update at h
    rcases hs : scalar_one_or_none UserInDB.id st.rows i with e | o <;> rw [hs] at h
    · simp at h
    rcases o with _ | r
    · simp at h
    have hkey := (scalar_one_or_none_mem_key UserInDB.id st.rows i r hs).1
    simp only [Prod.mk.injEq, Except.ok.injEq] at h
    rw [← h.1]
    simpa [User.from_orm, UserInDB.apply_update] using hkey
  · unfold ConvocationRepository.update
    rcases hs : scalar_one_or_none ConvocationInDB.id cst.rows i with e | o
    · rfl
    rcases o with _ | r
    · rfl
    have hkey := (scalar_one_or_none_mem_key ConvocationInDB.id cst.rows i r hs).1
    dsimp only
    rw [List.map_map]
    apply List.map_congr_left
    intro a _
    by_cases ha : a.id = i
    · simp [Function.comp, ha, ConvocationInDB.apply_update, hkey]
    · simp [Function.comp, ha]

/-- Witness for C8: a concrete update leaves the identifier at its
looked-up value. -/
theorem c8_witness :
    (User.mk 1 "bob" "b@example.com" none none none).id = 1 :=
  c8_id_assigned_once_at_creation.2.2.2.2.1
    { rows := [{ id := 1, username := "alice", email := "a@example.com",
                 first_name := none, last_name := none,
                 date_of_birth := none, hashed_password := "password123" }],
      nextId := 2 }
    1
    { username := "bob", email := "b@example.com" }
    (User.mk 1 "bob" "b@example.com" none none none)
    { rows := [{ id := 1, username := "bob", email := "b@example.com",
                 first_name := none, last_name := none,
                 date_of_birth := none, hashed_password := "password123" }],
      nextId := 2 }
    rfl

/-- A successful validation means every field was present in the raw
request body. -/
theorem validate_ok_shape (raw : RawConvocationInput) (u : ConvocationBase)
    (h : validate_convocation raw = .ok u) :
    raw.title = some u.title ∧ raw.description = some u.description ∧
    raw.start_date = some u.start_date ∧ raw.end_date = some u.end_date := by
  obtain ⟨t, d, s, e⟩ := raw
  unfold validate_convocation at h
  rcases t with _ | t
  · simp at h
  rcases d with _ | d
  · dsimp only at h
    split_ifs at h
  rcases s with _ | s
  · dsimp only at h
    split_ifs at h
  rcases e with _ | e
  · dsimp only at h
    split_ifs at h
  dsimp only at h
  split_ifs at h
  rw [Except.ok.injEq] at h
  subst h
  simp

/-- Claim C10: the convocation update schema marks every field required,
so a PUT body omitting any field fails validation, answers HTTP 422,
and never reaches the repository (the stored state is untouched); a
caller cannot express "leave this field unchanged" by omission. -/
theorem c10_update_fields_required
    (raw : RawConvocationInput) (st : ConvocationTable) (i : Nat)
    (h : raw.title = none ∨ raw.description = none ∨
      raw.start_date = none ∨ raw.end_date = none) :
    (validate_convocation raw).toOption = none ∧
    (ConvocationRouter.update_convocation raw st i).2 = st ∧
    (∃ d, (ConvocationRouter.update_convocation raw st i).1 = .error 422 d) := by
  rcases hval : validate_convocation raw with e | u
  · refine ⟨rfl, ?_, ?_⟩
    · simp [ConvocationRouter.update_convocation, hval]
    · exact ⟨e.str, by simp [ConvocationRouter.update_convocation, hval]⟩
  · exfalso
    have hs := validate_ok_shape raw u hval
    rcases h with h | h | h | h
    · rw [h] at hs; cases hs.1
    · rw [h] at hs; cases hs.2.1
    · rw [h] at hs; cases hs.2.2.1
    · rw [h] at hs; cases hs.2.2.2

/-- Witness for C10: a body omitting `description` is rejected with 422
and the table is unchanged. -/
theorem c10_witness :
    (({ title := some "Valid title", description := none,
        start_date := some 1, end_date := some 2 } : RawConvocationInput).title = none ∨
     ({ title := some "Valid title", description := none,
        start_date := some 1, end_date := some 2 } : RawConvocationInput).description = none ∨
     ({ title := some "Valid title", description := none,
        start_date := some 1, end_date := some 2 } : RawConvocationInput).start_date = none ∨
     ({ title := some "Valid title", description := none,
        start_date := some 1, end_date := some 2 } : RawConvocationInput).end_date = none) ∧
    (ConvocationRouter.update_convocation
        { title := some "Valid title", description := none,
          start_date := some 1, end_date := some 2 }
        { rows := [], nextId := 1 } 1).2 = { rows := [], nextId := 1 } :=
  ⟨Or.inr (Or.inl rfl),
   (c10_update_fields_required
     { title := some "Valid title", description := none,
       start_date := some 1, end_date := some 2 }
     { rows := [], nextId := 1 } 1 (Or.inr (Or.inl rfl))).2.1⟩

/-- Claim C9: for a fixed stored state, `get_all skip:=0 limit:=N`
concatenated with `get_all skip:=N limit:=N` equals
`get_all skip:=0 limit:=2N`, in all three variants. -/
theorem c9_pagination_concat (st : UserTable) (cst : ConvocationTable) (N : Nat) :
    Entorno.UserRepository.get_all st 0 N ++ Entorno.UserRepository.get_all st N N =
      Entorno.UserRepository.get_all st 0 (2 * N) ∧
    ConvocationRepository.get_all cst 0 N ++ ConvocationRepository.get_all cst N N =
      ConvocationRepository.get_all cst 0 (2 * N) ∧
    Proyecto.UserRepository.get_all st 0 N ++ Proyecto.UserRepository.get_all st N N =
      Proyecto.UserRepository.get_all st 0 (2 * N) := by
  refine ⟨?_, ?_, ?_⟩ <;>
    simp [Entorno.UserRepository.get_all, ConvocationRepository.get_all,
      Proyecto.UserRepository.get_all, two_mul, List.take_add, List.map_append]

end CallForTender
